import Mathlib

/-!
Shallow embedding of the item CRUD router of the `todo` backend
(`src/backend/src/routers/items.py`) together with the data model it
operates on, and proofs about the six exposed operations.

The router file is the only source file of the repository; the entity
classes it imports (`User`, `Item`, `ItemBase`, `ItemUpdate` from
`src.resources.models`) are not part of the sources, so their shapes are
modelled from the data-model section of the specification.

The persistence session is modelled as an explicit `Store` value: a list
of users, a list of items in storage (insertion) order, and the next
auto-increment item id.  Each handler becomes a pure function from its
request data and the store to a result (`ApiResult`, mirroring the JSON
responses and raised `HTTPException`s) and, for the mutating handlers, a
new store.
-/

set_option autoImplicit false

namespace Todo

/-- Modelled from the spec: `User` has `id` (positive integer, primary key)
and `is_admin` (boolean); the further auth-subsystem fields play no role in
this router. -/
structure User where
  id : Nat
  is_admin : Bool
deriving DecidableEq, Repr

/-- Modelled from the spec: `Item` has a generated primary key `id`,
`title`, `description`, `done`, and the owning `user_id`. -/
structure Item where
  id : Nat
  title : String
  description : String
  done : Bool
  user_id : Nat
deriving DecidableEq, Repr

/-- Modelled from the spec: creation payload — `title`, `description`,
`done`, all required. -/
structure ItemBase where
  title : String
  description : String
  done : Bool
deriving DecidableEq, Repr

/-- Modelled from the spec: patch payload — all three fields optional
(`None` when absent from the JSON body). -/
structure ItemUpdate where
  title : Option String
  description : Option String
  done : Option Bool
deriving DecidableEq, Repr

/-- The persistence store seen by one request: the user table, the item
table in storage (insertion) order, and the next auto-increment item id. -/
structure Store where
  users : List User
  items : List Item
  nextItemId : Nat
deriving DecidableEq, Repr

/-- Outcome of one handler call: the JSON responses the router builds and
the `HTTPException`s it raises.
`created` is the 201 response of `create_item`; `okItem`/`okItems` are the
200 responses carrying an item or an item list; `okDeleted` is the 200
response of `delete_item` (no item payload); `noContent` is the bare 204
response; `forbidden` is the 403 exception; `notFound` is the 404
exception with its detail message. -/
inductive ApiResult where
  | created (item : Item)
  | okItem (item : Item)
  | okItems (items : List Item)
  | okDeleted
  | noContent
  | forbidden
  | notFound (detail : String)
deriving DecidableEq, Repr

/-- Detail of the 404 raised when `session.get(User, user_id)` finds no row. -/
def userNotFoundMsg (user_id : Nat) : String :=
  "User with id " ++ toString user_id ++ " not found!"

/-- Detail of the 404 raised when no item matches both `item_id` and `user_id`. -/
def itemNotFoundMsg (item_id user_id : Nat) : String :=
  "Item with id " ++ toString item_id ++ " for user with id " ++
    toString user_id ++ " not found!"

/-- Embeds `session.get(User, user_id)`: primary-key lookup in the user table. -/
def getUser (s : Store) (user_id : Nat) : Option User :=
  s.users.find? (fun u => u.id == user_id)

/-- Embeds `select(Item).where(Item.id == item_id).where(Item.user_id == user_id)`
followed by `.first()`. -/
def findItem (s : Store) (item_id user_id : Nat) : Option Item :=
  s.items.find? (fun i => i.id == item_id && i.user_id == user_id)

/-- The SQLModel relationship `user.items`: all items owned by `user`, in
storage order. -/
def userItems (s : Store) (user : User) : List Item :=
  s.items.filter (fun i => i.user_id == user.id)

/-- Handler for `POST /users/{user_id}/items` (`create_item`): ownership-or-admin
check, then user-existence check, then persist a new item built from the
payload with the next auto-increment id. -/
def create_item (current_user : User) (user_id : Nat) (item : ItemBase)
    (s : Store) : ApiResult × Store :=
  if !current_user.is_admin && current_user.id != user_id then
    (ApiResult.forbidden, s)
  else
    match getUser s user_id with
    | none => (ApiResult.notFound (userNotFoundMsg user_id), s)
    | some user_db =>
      let new_item : Item :=
        { id := s.nextItemId
          title := item.title
          description := item.description
          done := item.done
          user_id := user_db.id }
      (ApiResult.created new_item,
        { s with
            items := s.items ++ [new_item]
            nextItemId := s.nextItemId + 1 })

/-- Handler for `GET /items` (`get_items`): admin-only; `offset`/`limit` are pushed to
the query (drop then take over storage order); 204 when the resulting page
is empty. -/
def get_items (current_user : User) (s : Store) (offset limit : Nat) :
    ApiResult :=
  if !current_user.is_admin then
    ApiResult.forbidden
  else
    let items := (s.items.drop offset).take limit
    if items.isEmpty then
      ApiResult.noContent
    else
      ApiResult.okItems items

/-- Handler for `GET /users/{user_id}/items` (`get_user_items`): ownership-or-admin
check, user-existence check, 204 when the user owns no items at all,
otherwise the Python slice `items[offset : offset + limit]` over the
full in-memory collection of the user. -/
def get_user_items (user_id : Nat) (current_user : User) (s : Store)
    (offset limit : Nat) : ApiResult :=
  if !current_user.is_admin && current_user.id != user_id then
    ApiResult.forbidden
  else
    match getUser s user_id with
    | none => ApiResult.notFound (userNotFoundMsg user_id)
    | some user =>
      if (userItems s user).isEmpty then
        ApiResult.noContent
      else
        ApiResult.okItems (((userItems s user).drop offset).take limit)

/-- Handler for `GET /users/{user_id}/items/{item_id}` (`get_item`): ownership-or-admin
check, user-existence check, then the two-column item lookup. -/
def get_item (user_id item_id : Nat) (current_user : User) (s : Store) :
    ApiResult :=
  if !current_user.is_admin && current_user.id != user_id then
    ApiResult.forbidden
  else
    match getUser s user_id with
    | none => ApiResult.notFound (userNotFoundMsg user_id)
    | some _user =>
      match findItem s item_id user_id with
      | none => ApiResult.notFound (itemNotFoundMsg item_id user_id)
      | some item => ApiResult.okItem item

/-- The field merge of `patch_item`: `title` and `description` are
replaced only when truthy (present and non-empty), `done` whenever it is
present (`is not None`), including `false`. -/
def applyUpdate (item : ItemUpdate) (item_db : Item) : Item :=
  let step1 : Item :=
    match item.title with
    | some t => if t != "" then { item_db with title := t } else item_db
    | none => item_db
  let step2 : Item :=
    match item.description with
    | some d => if d != "" then { step1 with description := d } else step1
    | none => step1
  match item.done with
  | some b => { step2 with done := b }
  | none => step2

/-- Replace the first element satisfying `p` by its image under `f`:
committing the mutation of the row object returned by `.first()`. -/
def updateFirst (p : Item → Bool) (f : Item → Item) : List Item → List Item
  | [] => []
  | x :: xs => if p x then f x :: xs else x :: updateFirst p f xs

/-- Handler for `PATCH /users/{user_id}/items/{item_id}` (`patch_item`):
ownership-or-admin check, user-existence check, two-column item lookup,
then the asymmetric field merge committed back to the store. -/
def patch_item (user_id item_id : Nat) (s : Store) (current_user : User)
    (item : ItemUpdate) : ApiResult × Store :=
  if !current_user.is_admin && current_user.id != user_id then
    (ApiResult.forbidden, s)
  else
    match getUser s user_id with
    | none => (ApiResult.notFound (userNotFoundMsg user_id), s)
    | some _user =>
      match findItem s item_id user_id with
      | none => (ApiResult.notFound (itemNotFoundMsg item_id user_id), s)
      | some item_db =>
        (ApiResult.okItem (applyUpdate item item_db),
          { s with
              items := updateFirst
                (fun i => i.id == item_id && i.user_id == user_id)
                (applyUpdate item) s.items })

/-- Handler for `DELETE /users/{user_id}/items/{item_id}` (`delete_item`):
ownership-or-admin check, user-existence check, two-column item lookup,
then `session.delete` of the found row. -/
def delete_item (user_id item_id : Nat) (current_user : User) (s : Store) :
    ApiResult × Store :=
  if !current_user.is_admin && current_user.id != user_id then
    (ApiResult.forbidden, s)
  else
    match getUser s user_id with
    | none => (ApiResult.notFound (userNotFoundMsg user_id), s)
    | some _user =>
      match findItem s item_id user_id with
      | none => (ApiResult.notFound (itemNotFoundMsg item_id user_id), s)
      | some _item =>
        (ApiResult.okDeleted,
          { s with
              items := s.items.eraseP
                (fun i => i.id == item_id && i.user_id == user_id) })

/-! ### Shared lemmas about the ownership-or-admin check -/

theorem forbiddenCheck_iff (cu : User) (uid : Nat) :
    (!cu.is_admin && cu.id != uid) = true ↔
      (cu.is_admin = false ∧ cu.id ≠ uid) := by
  simp [Bool.and_eq_true, Bool.not_eq_true', bne_iff_ne]

theorem check_false_of_authorized (cu : User) (uid : Nat)
    (h : cu.is_admin = true ∨ cu.id = uid) :
    (!cu.is_admin && cu.id != uid) = false := by
  rcases h with h | h <;> simp [h]

theorem create_item_forbidden_iff (cu : User) (uid : Nat) (pay : ItemBase)
    (s : Store) :
    (create_item cu uid pay s).1 = ApiResult.forbidden ↔
      (cu.is_admin = false ∧ cu.id ≠ uid) := by
  rw [← forbiddenCheck_iff]
  unfold create_item
  cases hb : (!cu.is_admin && cu.id != uid)
  · cases hf : getUser s uid <;> simp
  · simp

theorem get_user_items_forbidden_iff (cu : User) (uid off lim : Nat)
    (s : Store) :
    get_user_items uid cu s off lim = ApiResult.forbidden ↔
      (cu.is_admin = false ∧ cu.id ≠ uid) := by
  rw [← forbiddenCheck_iff]
  unfold get_user_items
  cases hb : (!cu.is_admin && cu.id != uid)
  · cases hf : getUser s uid
    · simp
    · rename_i u
      simp only [Bool.false_eq_true, if_false]
      split <;> simp
  · simp

theorem get_item_forbidden_iff (cu : User) (uid iid : Nat) (s : Store) :
    get_item uid iid cu s = ApiResult.forbidden ↔
      (cu.is_admin = false ∧ cu.id ≠ uid) := by
  rw [← forbiddenCheck_iff]
  unfold get_item
  cases hb : (!cu.is_admin && cu.id != uid)
  · cases hf : getUser s uid
    · simp
    · cases hi : findItem s iid uid <;> simp
  · simp

theorem patch_item_forbidden_iff (cu : User) (uid iid : Nat)
    (upd : ItemUpdate) (s : Store) :
    (patch_item uid iid s cu upd).1 = ApiResult.forbidden ↔
      (cu.is_admin = false ∧ cu.id ≠ uid) := by
  rw [← forbiddenCheck_iff]
  unfold patch_item
  cases hb : (!cu.is_admin && cu.id != uid)
  · cases hf : getUser s uid
    · simp
    · cases hi : findItem s iid uid <;> simp
  · simp

theorem delete_item_forbidden_iff (cu : User) (uid iid : Nat) (s : Store) :
    (delete_item uid iid cu s).1 = ApiResult.forbidden ↔
      (cu.is_admin = false ∧ cu.id ≠ uid) := by
  rw [← forbiddenCheck_iff]
  unfold delete_item
  cases hb : (!cu.is_admin && cu.id != uid)
  · cases hf : getUser s uid
    · simp
    · cases hi : findItem s iid uid <;> simp
  · simp

/-! ### Lemmas about the patch merge and the committed update -/

theorem applyUpdate_id (upd : ItemUpdate) (i : Item) :
    (applyUpdate upd i).id = i.id := by
  unfold applyUpdate
  rcases upd with ⟨t, d, b⟩
  cases t <;> cases d <;> cases b <;> dsimp <;> split_ifs <;> rfl

theorem applyUpdate_user_id (upd : ItemUpdate) (i : Item) :
    (applyUpdate upd i).user_id = i.user_id := by
  unfold applyUpdate
  rcases upd with ⟨t, d, b⟩
  cases t <;> cases d <;> cases b <;> dsimp <;> split_ifs <;> rfl

theorem find_updateFirst (p : Item → Bool) (f : Item → Item) (l : List Item)
    (a : Item) (h : l.find? p = some a) (hf : p (f a) = true) :
    (updateFirst p f l).find? p = some (f a) := by
  induction l with
  | nil => simp [List.find?] at h
  | cons x xs ih =>
    by_cases hx : p x = true
    · rw [List.find?_cons_of_pos _ hx] at h
      injection h with h
      subst h
      unfold updateFirst
      rw [if_pos hx, List.find?_cons_of_pos _ hf]
    · rw [List.find?_cons_of_neg _ (by simpa using hx)] at h
      unfold updateFirst
      rw [if_neg hx, List.find?_cons_of_neg _ (by simpa using hx)]
      exact ih h

theorem eraseP_find?_none (p : Item → Bool) (l : List Item)
    (hp : ∀ a b, p a = true → p b = true → a.id = b.id)
    (hpw : l.Pairwise (fun a b => a.id ≠ b.id)) :
    (l.eraseP p).find? p = none := by
  induction l with
  | nil => rfl
  | cons x xs ih =>
    rw [List.pairwise_cons] at hpw
    obtain ⟨hx, hxs⟩ := hpw
    by_cases hpx : p x = true
    · rw [List.eraseP_cons_of_pos hpx, List.find?_eq_none]
      intro y hy hpy
      exact hx y hy (hp x y hpx hpy)
    · rw [List.eraseP_cons_of_neg hpx,
        List.find?_cons_of_neg _ (by simpa using hpx)]
      exact ih hxs

theorem forall2_id_user_refl (l : List Item) :
    List.Forall₂ (fun a b => a.id = b.id ∧ a.user_id = b.user_id) l l := by
  induction l with
  | nil => exact List.Forall₂.nil
  | cons x xs ih => exact List.Forall₂.cons ⟨rfl, rfl⟩ ih

theorem updateFirst_forall2 (p : Item → Bool) (f : Item → Item)
    (hf : ∀ x, (f x).id = x.id ∧ (f x).user_id = x.user_id)
    (l : List Item) :
    List.Forall₂ (fun a b => a.id = b.id ∧ a.user_id = b.user_id) l
      (updateFirst p f l) := by
  induction l with
  | nil => exact List.Forall₂.nil
  | cons x xs ih =>
    unfold updateFirst
    by_cases hx : p x = true
    · rw [if_pos hx]
      exact List.Forall₂.cons ⟨(hf x).1.symm, (hf x).2.symm⟩
        (forall2_id_user_refl xs)
    · rw [if_neg hx]
      exact List.Forall₂.cons ⟨rfl, rfl⟩ ih

/-! ### Concrete fixtures for counterexamples and witnesses -/

def exAdmin : User := { id := 1, is_admin := true }

def exOwner : User := { id := 2, is_admin := false }

def exItem : Item :=
  { id := 1, title := "a", description := "b", done := false, user_id := 2 }

def exStore : Store :=
  { users := [exAdmin, exOwner], items := [exItem], nextItemId := 2 }

def exItemPatched : Item :=
  { id := 1, title := "a", description := "b", done := true, user_id := 2 }

/-! ### Claim theorems -/

/-- C1: for every user-scoped operation (CreateItem, ListUserItems,
GetItem, PatchItem, DeleteItem) and every caller, the call fails with
Forbidden (403) exactly when the caller is not an admin and the id of
the caller differs from the target `user_id`; equivalently, the request is
authorized (not Forbidden) iff the caller is an admin or owns the target
id. -/
theorem ownership_or_admin_rule (cu : User) (uid iid : Nat)
    (pay : ItemBase) (upd : ItemUpdate) (off lim : Nat) (s : Store) :
    ((create_item cu uid pay s).1 = ApiResult.forbidden ↔
      (cu.is_admin = false ∧ cu.id ≠ uid)) ∧
    (get_user_items uid cu s off lim = ApiResult.forbidden ↔
      (cu.is_admin = false ∧ cu.id ≠ uid)) ∧
    (get_item uid iid cu s = ApiResult.forbidden ↔
      (cu.is_admin = false ∧ cu.id ≠ uid)) ∧
    ((patch_item uid iid s cu upd).1 = ApiResult.forbidden ↔
      (cu.is_admin = false ∧ cu.id ≠ uid)) ∧
    ((delete_item uid iid cu s).1 = ApiResult.forbidden ↔
      (cu.is_admin = false ∧ cu.id ≠ uid)) :=
  ⟨create_item_forbidden_iff cu uid pay s,
   get_user_items_forbidden_iff cu uid off lim s,
   get_item_forbidden_iff cu uid iid s,
   patch_item_forbidden_iff cu uid iid upd s,
   delete_item_forbidden_iff cu uid iid s⟩

/-- C10: in every user-scoped operation the ownership-or-admin check runs
before any store lookup, so a non-admin caller with a foreign `user_id`
receives Forbidden for every store — including stores where the target
user or item does not exist; Forbidden takes precedence over NotFound. -/
theorem forbidden_precedes_store_lookups (cu : User) (uid iid : Nat)
    (pay : ItemBase) (upd : ItemUpdate) (off lim : Nat) (s : Store)
    (hadmin : cu.is_admin = false) (hne : cu.id ≠ uid) :
    (create_item cu uid pay s).1 = ApiResult.forbidden ∧
    get_user_items uid cu s off lim = ApiResult.forbidden ∧
    get_item uid iid cu s = ApiResult.forbidden ∧
    (patch_item uid iid s cu upd).1 = ApiResult.forbidden ∧
    (delete_item uid iid cu s).1 = ApiResult.forbidden :=
  ⟨(create_item_forbidden_iff cu uid pay s).mpr ⟨hadmin, hne⟩,
   (get_user_items_forbidden_iff cu uid off lim s).mpr ⟨hadmin, hne⟩,
   (get_item_forbidden_iff cu uid iid s).mpr ⟨hadmin, hne⟩,
   (patch_item_forbidden_iff cu uid iid upd s).mpr ⟨hadmin, hne⟩,
   (delete_item_forbidden_iff cu uid iid s).mpr ⟨hadmin, hne⟩⟩

/-- C2 counterexample: with one row in the item table, an admin calling
ListAllItems with offset 1 and limit 1 receives 204 No Content although
the table is not empty — 204 does not characterise the empty table, only
the empty page. -/
theorem list_all_items_204_not_iff_empty_table :
    get_items exAdmin exStore 1 1 = ApiResult.noContent ∧
      exStore.items ≠ [] := by
  constructor
  · rfl
  · decide

/-- C2 (amended): for every admin caller, offset ≥ 0 and limit ≥ 1,
ListAllItems returns 204 No Content iff the page obtained by applying
offset then limit to storage order is empty — with limit ≥ 1, exactly
when offset is at or beyond the number of rows (not iff the table has
zero rows); when offset is within the table it returns 200 with that
page. -/
theorem list_all_items_page (cu : User) (s : Store) (off lim : Nat)
    (hadmin : cu.is_admin = true) (hlim : 1 ≤ lim) :
    (get_items cu s off lim = ApiResult.noContent ↔ s.items.length ≤ off) ∧
    (off < s.items.length →
      get_items cu s off lim =
        ApiResult.okItems ((s.items.drop off).take lim)) := by
  have hpage : ((s.items.drop off).take lim) = [] ↔ s.items.length ≤ off := by
    rw [List.take_eq_nil_iff, List.drop_eq_nil_iff]
    constructor
    · rintro (h | h)
      · omega
      · exact h
    · exact fun h => Or.inr h
  unfold get_items
  rw [hadmin]
  simp only [Bool.not_true, Bool.false_eq_true, if_false, List.isEmpty_iff]
  constructor
  · constructor
    · intro h
      rw [← hpage]
      by_cases hc : (s.items.drop off).take lim = []
      · exact hc
      · rw [if_neg hc] at h
        exact absurd h (by simp)
    · intro h
      rw [if_pos (hpage.mpr h)]
  · intro hlt
    rw [if_neg]
    intro hc
    have := hpage.mp hc
    omega

/-- C2 witness: an admin listing the one-item store at offset 0 limit 10
gets 200 with the full page, and 204 is equivalent to the offset reaching
the table size. -/
theorem list_all_items_page_witness :
    exAdmin.is_admin = true ∧ 1 ≤ 10 ∧
    (get_items exAdmin exStore 0 10 = ApiResult.noContent ↔
      exStore.items.length ≤ 0) ∧
    (0 < exStore.items.length →
      get_items exAdmin exStore 0 10 =
        ApiResult.okItems ((exStore.items.drop 0).take 10)) :=
  ⟨rfl, by decide,
    (list_all_items_page exAdmin exStore 0 10 rfl (by decide)).1,
    (list_all_items_page exAdmin exStore 0 10 rfl (by decide)).2⟩

/-- C3: for an authorized caller and an existing user, ListUserItems
returns 204 No Content iff the user owns zero items in total — independent
of offset and limit — while if the user owns at least one item and offset
is at or beyond the size of the collection of that user it returns 200 with an
empty list, because offset/limit are applied as an in-memory slice after
loading all items of the user. -/
theorem list_user_items_semantics (cu u : User) (uid off lim : Nat)
    (s : Store)
    (hauth : cu.is_admin = true ∨ cu.id = uid)
    (hu : getUser s uid = some u) :
    (get_user_items uid cu s off lim = ApiResult.noContent ↔
      userItems s u = []) ∧
    (userItems s u ≠ [] → (userItems s u).length ≤ off →
      get_user_items uid cu s off lim = ApiResult.okItems []) := by
  unfold get_user_items
  rw [check_false_of_authorized cu uid hauth, hu]
  simp only [Bool.false_eq_true, if_false, List.isEmpty_iff]
  constructor
  · by_cases he : userItems s u = []
    · rw [if_pos he]
      simp [he]
    · rw [if_neg he]
      simp [he]
  · intro hne hoff
    rw [if_neg hne, List.drop_eq_nil_iff.mpr hoff, List.take_nil]

/-- C3 witness: user 2 listing their own one-item collection at offset 5
gets 200 with an empty list, and 204 is equivalent to owning no items. -/
theorem list_user_items_semantics_witness :
    (exOwner.is_admin = true ∨ exOwner.id = 2) ∧
    getUser exStore 2 = some exOwner ∧
    (get_user_items 2 exOwner exStore 5 10 = ApiResult.noContent ↔
      userItems exStore exOwner = []) ∧
    (userItems exStore exOwner ≠ [] →
      (userItems exStore exOwner).length ≤ 5 →
      get_user_items 2 exOwner exStore 5 10 = ApiResult.okItems []) :=
  ⟨Or.inr rfl, rfl,
    (list_user_items_semantics exOwner exOwner 2 5 10 exStore
      (Or.inr rfl) rfl).1,
    (list_user_items_semantics exOwner exOwner 2 5 10 exStore
      (Or.inr rfl) rfl).2⟩

/-- C4: for an authorized PatchItem on an existing item, the returned and
stored item is the merge of the old row with the payload, where `title`
(resp. `description`) is replaced only when supplied and non-empty — a
payload title of `""` or an absent title leaves the field unchanged —
while `done` is replaced whenever it is supplied, including `false`. -/
theorem patch_item_field_merge (cu u : User) (uid iid : Nat)
    (upd : ItemUpdate) (s : Store) (item_db : Item)
    (hauth : cu.is_admin = true ∨ cu.id = uid)
    (hu : getUser s uid = some u)
    (hi : findItem s iid uid = some item_db) :
    (patch_item uid iid s cu upd).1 =
      ApiResult.okItem (applyUpdate upd item_db) ∧
    findItem (patch_item uid iid s cu upd).2 iid uid =
      some (applyUpdate upd item_db) ∧
    ((upd.title = none ∨ upd.title = some "") →
      (applyUpdate upd item_db).title = item_db.title) ∧
    (∀ t, upd.title = some t → t ≠ "" →
      (applyUpdate upd item_db).title = t) ∧
    ((upd.description = none ∨ upd.description = some "") →
      (applyUpdate upd item_db).description = item_db.description) ∧
    (∀ d, upd.description = some d → d ≠ "" →
      (applyUpdate upd item_db).description = d) ∧
    (upd.done = none → (applyUpdate upd item_db).done = item_db.done) ∧
    (∀ b, upd.done = some b → (applyUpdate upd item_db).done = b) := by
  have hmatch : (fun i => i.id == iid && i.user_id == uid)
      (applyUpdate upd item_db) = true := by
    have := List.find?_some hi
    simpa [applyUpdate_id, applyUpdate_user_id] using this
  have hrun : patch_item uid iid s cu upd =
      (ApiResult.okItem (applyUpdate upd item_db),
        { s with
            items := updateFirst
              (fun i => i.id == iid && i.user_id == uid)
              (applyUpdate upd) s.items }) := by
    unfold patch_item
    rw [check_false_of_authorized cu uid hauth, hu, hi]
    rfl
  refine ⟨by rw [hrun], ?_, ?_, ?_, ?_, ?_, ?_, ?_⟩
  · rw [hrun]
    exact find_updateFirst _ _ s.items item_db hi hmatch
  · rintro (ht | ht) <;>
      rcases upd with ⟨t, d, b⟩ <;> cases ht <;>
      cases d <;> cases b <;> simp [applyUpdate] <;> split_ifs <;> simp_all
  · rintro t ht hne
    rcases upd with ⟨t0, d, b⟩
    cases ht
    cases d <;> cases b <;> simp [applyUpdate] <;> split_ifs <;> simp_all
  · rintro (hd | hd) <;>
      rcases upd with ⟨t, d, b⟩ <;> cases hd <;>
      cases t <;> cases b <;> simp [applyUpdate] <;> split_ifs <;> simp_all
  · rintro d hd hne
    rcases upd with ⟨t, d0, b⟩
    cases hd
    cases t <;> cases b <;> simp [applyUpdate] <;> split_ifs <;> simp_all
  · rintro hb
    rcases upd with ⟨t, d, b⟩
    cases hb
    cases t <;> cases d <;> simp [applyUpdate] <;> split_ifs <;> simp_all
  · rintro b hb
    rcases upd with ⟨t, d, b0⟩
    cases hb
    cases t <;> cases d <;> simp [applyUpdate]

/-- C4 witness: user 2 patching their item with payload
`{title: "", done: true}` (description absent) gets back the item with
the empty title ignored and `done` set, both in the response and in the
store. -/
theorem patch_item_field_merge_witness :
    (patch_item 2 1 exStore exOwner
        { title := some "", description := none, done := some true }).1 =
      ApiResult.okItem exItemPatched ∧
    findItem (patch_item 2 1 exStore exOwner
        { title := some "", description := none, done := some true }).2
        1 2 = some exItemPatched := by
  have h := patch_item_field_merge exOwner exOwner 2 1
    { title := some "", description := none, done := some true }
    exStore exItem (Or.inr rfl) rfl rfl
  exact ⟨by rw [h.1]; rfl, by rw [h.2.1]; rfl⟩

/-- C5: for an authorized caller and an existing user, GetItem, PatchItem
and DeleteItem answer NotFound (with the message naming both ids) whenever
an item with `item_id` exists but every item carrying that id is owned by
a different user: the lookup requires both the item id and the owning
user id to match. -/
theorem item_lookup_requires_owner (cu u : User) (uid iid : Nat)
    (upd : ItemUpdate) (s : Store) (j : Item)
    (hauth : cu.is_admin = true ∨ cu.id = uid)
    (hu : getUser s uid = some u)
    (hex : j ∈ s.items) (hjid : j.id = iid)
    (hdiff : ∀ k ∈ s.items, k.id = iid → k.user_id ≠ uid) :
    get_item uid iid cu s = ApiResult.notFound (itemNotFoundMsg iid uid) ∧
    (patch_item uid iid s cu upd).1 =
      ApiResult.notFound (itemNotFoundMsg iid uid) ∧
    (delete_item uid iid cu s).1 =
      ApiResult.notFound (itemNotFoundMsg iid uid) := by
  have hnone : findItem s iid uid = none := by
    unfold findItem
    rw [List.find?_eq_none]
    intro k hk
    simp only [Bool.and_eq_true, beq_iff_eq, not_and]
    exact fun hid => hdiff k hk hid
  refine ⟨?_, ?_, ?_⟩
  · unfold get_item
    rw [check_false_of_authorized cu uid hauth, hu, hnone]
    rfl
  · unfold patch_item
    rw [check_false_of_authorized cu uid hauth, hu, hnone]
    rfl
  · unfold delete_item
    rw [check_false_of_authorized cu uid hauth, hu, hnone]
    rfl

/-- C5 witness: item 1 exists but belongs to user 2, so the admin asking
for it under the scope of user 1 gets the two-id NotFound from all three
operations. -/
theorem item_lookup_requires_owner_witness :
    get_item 1 1 exAdmin exStore =
      ApiResult.notFound (itemNotFoundMsg 1 1) ∧
    (patch_item 1 1 exStore exAdmin
        { title := none, description := none, done := none }).1 =
      ApiResult.notFound (itemNotFoundMsg 1 1) ∧
    (delete_item 1 1 exAdmin exStore).1 =
      ApiResult.notFound (itemNotFoundMsg 1 1) :=
  item_lookup_requires_owner exAdmin exAdmin 1 1
    { title := none, description := none, done := none } exStore exItem
    (Or.inl rfl) rfl (by decide) rfl (by decide)

/-- C6: an authorized CreateItem whose target `user_id` matches no
existing user fails with the user NotFound and leaves the store
completely unchanged — no item row is created. -/
theorem create_item_missing_user (cu : User) (uid : Nat) (pay : ItemBase)
    (s : Store)
    (hauth : cu.is_admin = true ∨ cu.id = uid)
    (hu : getUser s uid = none) :
    (create_item cu uid pay s).1 =
      ApiResult.notFound (userNotFoundMsg uid) ∧
    (create_item cu uid pay s).2 = s := by
  unfold create_item
  rw [check_false_of_authorized cu uid hauth, hu]
  exact ⟨rfl, rfl⟩

/-- C6 witness: the admin creating an item for the absent user 99 gets
NotFound and the store is unchanged. -/
theorem create_item_missing_user_witness :
    (create_item exAdmin 99
        { title := "t", description := "d", done := false } exStore).1 =
      ApiResult.notFound (userNotFoundMsg 99) ∧
    (create_item exAdmin 99
        { title := "t", description := "d", done := false } exStore).2 =
      exStore :=
  create_item_missing_user exAdmin 99
    { title := "t", description := "d", done := false } exStore
    (Or.inl rfl) (by decide)

/-- C7 (round trip): when CreateItem succeeds with item `i` and every
id of every pre-existing item differs from the auto-increment id about to be
assigned, a subsequent GetItem on `i.id` by any authorized caller in the
resulting store returns `i`, whose title, description and done equal the
those of the payload and whose `user_id` is the target user id. -/
theorem create_then_get_round_trip (cu cu2 : User) (uid : Nat)
    (pay : ItemBase) (s : Store) (i : Item) (s2 : Store)
    (hcreate : create_item cu uid pay s = (ApiResult.created i, s2))
    (hauth2 : cu2.is_admin = true ∨ cu2.id = uid)
    (hfresh : ∀ j ∈ s.items, j.id ≠ s.nextItemId) :
    get_item uid i.id cu2 s2 = ApiResult.okItem i ∧
    i.title = pay.title ∧ i.description = pay.description ∧
    i.done = pay.done ∧ i.user_id = uid := by
  unfold create_item at hcreate
  cases hb : (!cu.is_admin && cu.id != uid) <;> rw [hb] at hcreate
  case true => simp at hcreate
  cases hgu : getUser s uid <;> rw [hgu] at hcreate
  case none => simp at hcreate
  case some u =>
  have huid : u.id = uid := by
    have := List.find?_some hgu
    simpa using this
  simp at hcreate
  obtain ⟨hi, hs2⟩ := hcreate
  have husers : s2.users = s.users := by rw [← hs2]
  have hitems : s2.items = s.items ++ [i] := by rw [← hs2, ← hi]
  refine ⟨?_, by rw [← hi], by rw [← hi], by rw [← hi],
    by rw [← hi]; exact huid⟩
  unfold get_item
  rw [check_false_of_authorized cu2 uid hauth2]
  have hgu2 : getUser s2 uid = some u := by
    unfold getUser
    rw [husers]
    exact hgu
  rw [hgu2]
  have hfi : findItem s2 i.id uid = some i := by
    unfold findItem
    rw [hitems, List.find?_append]
    have hleft : s.items.find?
        (fun j => j.id == i.id && j.user_id == uid) = none := by
      rw [List.find?_eq_none]
      intro j hj
      simp only [Bool.and_eq_true, beq_iff_eq, not_and]
      intro hid
      exfalso
      exact hfresh j hj (by rw [hid, ← hi])
    rw [hleft]
    simp [List.find?, ← hi, huid]
  rw [hfi]
  rfl

/-- C7 witness: user 2 creates an item for themself in the fixture store
and immediately reads it back with identical fields. -/
theorem create_then_get_round_trip_witness :
    get_item 2 2 exOwner
      (create_item exOwner 2
        { title := "t", description := "d", done := true } exStore).2 =
      ApiResult.okItem
        { id := 2, title := "t", description := "d", done := true,
          user_id := 2 } := by
  have h := create_then_get_round_trip exOwner exOwner 2
    { title := "t", description := "d", done := true } exStore
    { id := 2, title := "t", description := "d", done := true,
      user_id := 2 }
    (create_item exOwner 2
      { title := "t", description := "d", done := true } exStore).2
    (by decide) (Or.inr rfl) (by decide)
  exact h.1

/-- C8: when DeleteItem succeeds and item ids in the store are pairwise
distinct, a subsequent GetItem with the same `user_id` and `item_id` by
any authorized caller returns the two-id NotFound: the row is permanently
gone. -/
theorem delete_then_get_not_found (cu cu2 : User) (uid iid : Nat)
    (s s2 : Store)
    (hdel : delete_item uid iid cu s = (ApiResult.okDeleted, s2))
    (hauth2 : cu2.is_admin = true ∨ cu2.id = uid)
    (huniq : s.items.Pairwise (fun a b => a.id ≠ b.id)) :
    get_item uid iid cu2 s2 =
      ApiResult.notFound (itemNotFoundMsg iid uid) := by
  unfold delete_item at hdel
  cases hb : (!cu.is_admin && cu.id != uid) <;> rw [hb] at hdel
  case true => simp at hdel
  cases hgu : getUser s uid <;> rw [hgu] at hdel
  case none => simp at hdel
  case some u0 =>
  cases hfi : findItem s iid uid <;> rw [hfi] at hdel
  case none => simp at hdel
  case some item0 =>
  simp at hdel
  have husers : s2.users = s.users := by rw [← hdel]
  have hitems : s2.items =
      s.items.eraseP (fun i => i.id == iid && i.user_id == uid) := by
    rw [← hdel]
  unfold get_item
  rw [check_false_of_authorized cu2 uid hauth2]
  have hgu2 : getUser s2 uid = some u0 := by
    unfold getUser
    rw [husers]
    exact hgu
  rw [hgu2]
  have hfi2 : findItem s2 iid uid = none := by
    unfold findItem
    rw [hitems]
    refine eraseP_find?_none _ s.items ?_ huniq
    intro a b ha hb
    simp only [Bool.and_eq_true, beq_iff_eq] at ha hb
    rw [ha.1, hb.1]
  rw [hfi2]
  rfl

/-- C8 witness: user 2 deletes their item 1 and immediately asking for it
again yields the two-id NotFound. -/
theorem delete_then_get_not_found_witness :
    get_item 2 1 exOwner (delete_item 2 1 exOwner exStore).2 =
      ApiResult.notFound (itemNotFoundMsg 1 2) := by
  have h := delete_then_get_not_found exOwner exOwner 2 1 exStore
    (delete_item 2 1 exOwner exStore).2 (by decide) (Or.inr rfl)
    (by decide)
  exact h

/-- C9: no operation changes the `id` or `user_id` of an existing item:
CreateItem leaves all pre-existing rows verbatim (it only appends),
PatchItem keeps the `id` and `user_id` of every row (it may only change title,
description and done of the matched row), and DeleteItem only removes
rows (the surviving rows are a sublist, kept verbatim); the read-only
operations return no store at all. -/
theorem ids_and_owners_immutable (cu : User) (uid iid : Nat)
    (pay : ItemBase) (upd : ItemUpdate) (s : Store) :
    (∃ tail, ((create_item cu uid pay s).2).items = s.items ++ tail) ∧
    List.Forall₂ (fun a b => a.id = b.id ∧ a.user_id = b.user_id)
      s.items ((patch_item uid iid s cu upd).2).items ∧
    List.Sublist ((delete_item uid iid cu s).2).items s.items := by
  refine ⟨?_, ?_, ?_⟩
  · unfold create_item
    cases hb : (!cu.is_admin && cu.id != uid)
    · cases hgu : getUser s uid
      · exact ⟨[], by simp⟩
      · exact ⟨_, rfl⟩
    · exact ⟨[], by simp⟩
  · unfold patch_item
    cases hb : (!cu.is_admin && cu.id != uid)
    · cases hgu : getUser s uid
      · simp
      · cases hfi : findItem s iid uid
        · simp
        · have := updateFirst_forall2
            (fun i => i.id == iid && i.user_id == uid) (applyUpdate upd)
            (fun x => ⟨applyUpdate_id upd x, applyUpdate_user_id upd x⟩)
            s.items
          simpa using this
    · simp
  · unfold delete_item
    cases hb : (!cu.is_admin && cu.id != uid)
    · cases hgu : getUser s uid
      · simp
      · cases hfi : findItem s iid uid
        · simp
        · simp [List.eraseP_sublist]
    · simp

/-- C10 witness: user 7 (non-admin) calling every operation against user
the scope of user 5 on the empty store is Forbidden even though user 5 does not
exist. -/
theorem forbidden_precedes_store_lookups_witness :
    (create_item { id := 7, is_admin := false } 5
        { title := "t", description := "d", done := false }
        { users := [], items := [], nextItemId := 1 }).1 =
      ApiResult.forbidden :=
  (forbidden_precedes_store_lookups { id := 7, is_admin := false } 5 1
      { title := "t", description := "d", done := false }
      { title := none, description := none, done := none } 0 10
      { users := [], items := [], nextItemId := 1 }
      rfl (by decide)).1

end Todo
